import Mathlib

/-!
Verification of the powerflow SMC/IOKit collector core.

The repository's IOKit sub-package (`powermonitor/collector/iokit/`:
`structures.py`, `parser.py`, `connection.py`, `collector.py`) is exercised by
`tests/test_iokit.py` but its module sources are not present in the tree, so
the definitions below for the key codec, the numeric decoder, the SMC
connection and the composite collector are modelled from the specification
(sections 4.1-4.4, 6 and 7), with the test suite as corroborating evidence.
The collector factory (`powerflow/collector/factory.py`) is present and is
embedded directly from its source.

Machine integers are modelled as `Nat`/`Int`; byte buffers as `List Nat` with
each element below 256; Python `float` results as `ℚ` (every value the decoder
produces from integer buffers is an exact binary rational); exceptions as
`Except`.
-/

namespace Powerflow

/-! ### Key codec (`structures.py`) -/

/-- Modelled from the spec: `str_to_key` (`encode_key`) is valid only for
4-character ASCII input and returns the big-endian 4-byte interpretation of
the characters as an unsigned 32-bit integer; any other length returns the
sentinel 0. -/
def str_to_key (name : String) : Nat :=
  if name.length = 4 then
    name.data.foldl (fun acc c => acc * 256 + c.toNat) 0
  else 0

/-- Modelled from the spec: `key_to_str` (`decode_key`) reinterprets the 4
bytes of the big-endian 32-bit integer as ASCII characters. -/
def key_to_str (value : Nat) : String :=
  String.mk [Char.ofNat (value / 2 ^ 24 % 256), Char.ofNat (value / 2 ^ 16 % 256),
    Char.ofNat (value / 2 ^ 8 % 256), Char.ofNat (value % 256)]

/-- Modelled from the spec: `type_to_str` (`decode_type`) is the identical
byte decoding used for a sensor's reported data-type tag. -/
def type_to_str (value : Nat) : String :=
  key_to_str value

/-! ### Numeric decoder (`parser.py`) -/

/-- Modelled from the spec: the signed fixed-point type-tag family, all
decoded with the same /256 scale. -/
def signedFPTypes : List String :=
  ["sp78", "sp87", "sp96", "spa5", "spb4", "spf0"]

/-- Modelled from the spec: the unsigned fixed-point type-tag family, all
decoded with the same /256 scale. -/
def unsignedFPTypes : List String :=
  ["fp88", "fp79", "fp6a", "fp4c"]

/-- Big-endian unsigned interpretation of a byte list (`int.from_bytes(_, "big")`). -/
def beUint (bs : List Nat) : Nat :=
  bs.foldl (fun acc b => acc * 256 + b) 0

/-- Reinterpret an unsigned 16-bit value as a signed 16-bit value
(two's complement, as `int.from_bytes(_, "big", signed=True)` on 2 bytes). -/
def signed16 (n : Nat) : Int :=
  if n < 32768 then (n : Int) else (n : Int) - 65536

/-- Modelled from the spec: the `"flt "` arm interprets 4 bytes as a
big-endian IEEE-754 single-precision float.  Finite encodings are represented
exactly as rationals; the infinity/NaN encodings (exponent field 255), which
fall outside the rational codomain, are mapped to the sentinel ±2^128.  No
verified claim depends on this arm's value. -/
def decodeFlt32 (w : Nat) : ℚ :=
  let sign : ℚ := if w / 2 ^ 31 % 2 = 1 then -1 else 1
  let e : Nat := w / 2 ^ 23 % 256
  let m : Nat := w % 2 ^ 23
  if e = 0 then sign * m / 2 ^ 149
  else if e = 255 then sign * 2 ^ 128
  else sign * ((2 ^ 23 + m : ℚ) * (2 : ℚ) ^ ((e : ℤ) - 150))

/-- Modelled from the spec: `bytes_to_float(bytes, type_tag, declared_length)`
dispatches on the type tag: signed/unsigned fixed-point families divide the
big-endian 16-bit value by 256, `"flt "` is IEEE-754 single precision,
`"ui8 "`/`"ui16"`/`"ui32"` are unscaled big-endian unsigned integers, and an
unknown tag falls back to the unsigned big-endian integer of the declared
length.  Each arm first checks that the buffer has the bytes its
interpretation requires and returns 0.0 otherwise, never raising. -/
def bytes_to_float (data : List Nat) (dataType : String) (length : Nat) : ℚ :=
  if dataType ∈ signedFPTypes then
    if data.length < 2 then 0 else (signed16 (beUint (data.take 2)) : ℚ) / 256
  else if dataType ∈ unsignedFPTypes then
    if data.length < 2 then 0 else (beUint (data.take 2) : ℚ) / 256
  else if dataType = "flt " then
    if data.length < 4 then 0 else decodeFlt32 (beUint (data.take 4))
  else if dataType = "ui8 " then
    if data.length < 1 then 0 else (beUint (data.take 1) : ℚ)
  else if dataType = "ui16" then
    if data.length < 2 then 0 else (beUint (data.take 2) : ℚ)
  else if dataType = "ui32" then
    if data.length < 4 then 0 else (beUint (data.take 4) : ℚ)
  else
    if data.length < length then 0 else (beUint (data.take length) : ℚ)

/-- The known type tags of the decoder's dispatch table; anything else takes
the size-based fallback arm. -/
def knownTypes : List String :=
  signedFPTypes ++ unsignedFPTypes ++ ["flt ", "ui8 ", "ui16", "ui32"]

/-- The number of bytes the interpretation chosen by `bytes_to_float` for a
given type tag and declared length requires (the bound of each arm's
insufficient-data check). -/
def required_length (dataType : String) (length : Nat) : Nat :=
  if dataType ∈ signedFPTypes then 2
  else if dataType ∈ unsignedFPTypes then 2
  else if dataType = "flt " then 4
  else if dataType = "ui8 " then 1
  else if dataType = "ui16" then 2
  else if dataType = "ui32" then 4
  else length

/-! ### SMC connection (`connection.py`) -/

/-- One uppercase hexadecimal digit. -/
def hex_digit (n : Nat) : Char :=
  if n < 10 then Char.ofNat (48 + n) else Char.ofNat (55 + n)

/-- Fixed-width 8-digit uppercase hexadecimal rendering of a 32-bit code. -/
def hex8 (n : Nat) : String :=
  String.mk ((List.range 8).map (fun i => hex_digit (n / 16 ^ (7 - i) % 16)))

/-- Modelled from the spec: the fixed lookup table from known platform status
codes to symbolic names. -/
def kern_return_names : List (Nat × String) :=
  [(0, "KERN_SUCCESS"), (1, "KERN_INVALID_ADDRESS"), (2, "KERN_PROTECTION_FAILURE"),
   (3, "KERN_NO_SPACE"), (4, "KERN_INVALID_ARGUMENT"), (5, "KERN_FAILURE"),
   (0xE00002C0, "kIOReturnError"), (0xE00002C1, "kIOReturnNoMemory"),
   (0xE00002C2, "kIOReturnNoDevice"), (0xE00002C3, "kIOReturnNoResources")]

/-- Modelled from the spec: `get_kern_return_name` maps known status codes to
symbolic names, with an "Unknown error (0x...)" rendering for unrecognized
codes. -/
def get_kern_return_name (code : Nat) : String :=
  match kern_return_names.find? (fun p => p.1 == code) with
  | some p => p.2
  | none => "Unknown error (0x" ++ hex8 code ++ ")"

/-- A call issued to the platform sensor-query service: the metadata query or
the data query. -/
inductive DeviceCall where
  | metaQuery (key : Nat)
  | dataQuery (key : Nat) (length : Nat)
deriving DecidableEq

/-- Modelled from the spec: the platform sensor service consumed by
`read_key` via two calls — a metadata query returning (byte length, encoded
type tag) or a non-success status code, and a data query returning the raw
bytes or a non-success status code. -/
structure SMCDevice where
  metaQuery : Nat → Except Nat (Nat × Nat)
  dataQuery : Nat → Nat → Except Nat (List Nat)

/-- An error raised by `read_key`: the `ValueError` for a malformed key name,
or the typed `SMCError` carrying the symbolic status name. -/
inductive ReadKeyError where
  | valueError (message : String)
  | smcError (message : String)
deriving DecidableEq

/-- Modelled from the spec: `SMCConnection.read_key(name)` first validates
that `name` is exactly 4 characters (raising a validation error before any
device I/O), then issues the metadata query and the data query, failing with
a typed SMC error naming the status code if either reports non-success, and
finally decodes the raw bytes with the returned type tag and length.  The
second component of the result records the device calls issued, in order. -/
def read_key (dev : SMCDevice) (name : String) :
    Except ReadKeyError ℚ × List DeviceCall :=
  if name.length ≠ 4 then
    (.error (.valueError "SMC key must be exactly 4 characters"), [])
  else
    let key := str_to_key name
    match dev.metaQuery key with
    | .error status =>
        (.error (.smcError (get_kern_return_name status)), [.metaQuery key])
    | .ok (len, ty) =>
        match dev.dataQuery key len with
        | .error status =>
            (.error (.smcError (get_kern_return_name status)),
             [.metaQuery key, .dataQuery key len])
        | .ok bytes =>
            (.ok (bytes_to_float bytes (type_to_str ty) len),
             [.metaQuery key, .dataQuery key len])

/-- The typed error raised by the SMC layer (`SMCError`), as seen by the
collector's per-sensor reads. -/
structure SMCError where
  message : String
deriving DecidableEq

/-! ### Composite collector (`collector.py`) -/

/-- The `PowerReading` value object produced by a collector (external entity;
field list from the spec's data model and the test suite). -/
structure PowerReading where
  timestamp : ℚ
  battery_percent : ℚ
  watts_actual : ℚ
  watts_negotiated : ℚ
  voltage : ℚ
  amperage : ℚ
  current_capacity : ℚ
  max_capacity : ℚ
  is_charging : Bool
  external_connected : Bool
  charger_name : Option String
  charger_manufacturer : Option String
deriving DecidableEq

/-- Modelled from the spec: `SMCPowerData`, a per-cycle aggregate of optional
sensor readings; every field starts unset. -/
structure SMCPowerData where
  battery_power : Option ℚ := none
  power_input : Option ℚ := none
  system_power : Option ℚ := none
  heatpipe_power : Option ℚ := none
  display_power : Option ℚ := none
  battery_temp : Option ℚ := none
  charging_status : Option ℚ := none
deriving DecidableEq

/-- Modelled from the spec: the fixed sensor-key table, pairing each of the
seven 4-character keys with the `SMCPowerData` field it populates. -/
def smc_sensor_keys : List (String × (SMCPowerData → ℚ → SMCPowerData)) :=
  [("PPBR", fun d v => { d with battery_power := some v }),
   ("PDTR", fun d v => { d with power_input := some v }),
   ("PSTR", fun d v => { d with system_power := some v }),
   ("PHPC", fun d v => { d with heatpipe_power := some v }),
   ("PDBR", fun d v => { d with display_power := some v }),
   ("TB0T", fun d v => { d with battery_temp := some v }),
   ("CHCC", fun d v => { d with charging_status := some v })]

/-- Modelled from the spec: `_read_smc_sensors` walks the fixed sensor-key
table over an open connection (`conn` maps a key name to the outcome of
`read_key` on it), wrapping each read so that a failure leaves that field
unset and never aborts the cycle. -/
def read_smc_sensors (conn : String → Except SMCError ℚ) : SMCPowerData :=
  smc_sensor_keys.foldl
    (fun d kv =>
      match conn kv.1 with
      | .ok v => kv.2 d v
      | .error _ => d)
    {}

/-- Modelled from the spec: the enhancement step of `_collect_with_smc` — if
`power_input` (PDTR) was obtained, override the base reading's `watts_actual`
with it; otherwise return the base reading untouched. -/
def collect_with_smc (base : PowerReading) (smcData : SMCPowerData) : PowerReading :=
  match smcData.power_input with
  | some watts => { base with watts_actual := watts }
  | none => base

/-- An exception escaping `_collect_with_smc`: the typed SMC error or any
other exception. -/
inductive CollectError where
  | smcError (message : String)
  | otherError (message : String)
deriving DecidableEq

/-- Modelled from the spec: `IOKitCollector.collect()` attempts the SMC path
and, on any error (typed SMC error or any other exception), delegates
entirely to the fallback (ioreg-based) collector's `collect()`, returning its
result unchanged.  The two arguments are the outcomes of the SMC attempt and
of the fallback collector's `collect()`. -/
def collect (smcAttempt fallbackResult : Except CollectError PowerReading) :
    Except CollectError PowerReading :=
  match smcAttempt with
  | .ok reading => .ok reading
  | .error _ => fallbackResult

/-! ### Collector factory (`powerflow/collector/factory.py`, embedded from
source) -/

/-- The collector implementations `default_collector` can choose from. -/
inductive PowerCollector where
  | ioregCollector
  | iokitCollector
deriving DecidableEq

/-- Embedded from `factory.py`: raise `RuntimeError` unless the platform is
`"darwin"`; otherwise always return an `IORegCollector` (the IOKit path is
commented out in the source). -/
def default_collector (platform : String) : Except String PowerCollector :=
  if platform ≠ "darwin" then
    .error "PowerFlow only supports macOS"
  else
    .ok .ioregCollector

/-! ### Sample values used by witnesses -/

/-- A concrete base `PowerReading` (values from the test suite). -/
def sampleReading : PowerReading :=
  { timestamp := 1234567890, battery_percent := 85, watts_actual := 5,
    watts_negotiated := 65, voltage := 25 / 2, amperage := 2 / 5,
    current_capacity := 5100, max_capacity := 6000, is_charging := true,
    external_connected := true, charger_name := some "USB PD",
    charger_manufacturer := some "Apple" }

/-- SMC data with a successful PDTR (power_input) read of 18.5 W. -/
def smcDataWithPDTR : SMCPowerData :=
  { battery_power := some 10, power_input := some (37 / 2), system_power := some 15 }

/-- SMC data whose PDTR (power_input) read failed. -/
def smcDataNoPDTR : SMCPowerData :=
  { battery_power := some 10 }

/-- A device on which every platform query reports `kIOReturnNoDevice`. -/
def unavailableDevice : SMCDevice :=
  { metaQuery := fun _ => .error 0xE00002C2, dataQuery := fun _ _ => .error 0xE00002C2 }

/-! ### Claims -/

/-- C1: for every error raised inside the SMC collection attempt — the typed
SMC error or any other exception — `collect` catches it and returns exactly
the `PowerReading` produced by the fallback collector, every field unchanged,
without itself raising. -/
theorem collect_falls_back_on_error (e : CollectError) (r : PowerReading) :
    collect (.error e) (.ok r) = .ok r := rfl

/-- C2: in `collect_with_smc`, if and only if the PDTR (power_input) read
succeeded with value `x` is the base reading's `watts_actual` replaced by
`x`; if PDTR was not obtained the base reading is returned untouched, and in
both cases every field other than `watts_actual` is unchanged. -/
theorem collect_with_smc_overrides_watts (base : PowerReading) (d : SMCPowerData) :
    (∀ x, d.power_input = some x →
      collect_with_smc base d = { base with watts_actual := x }) ∧
    (d.power_input = none → collect_with_smc base d = base) := by
  constructor
  · intro x hx
    simp [collect_with_smc, hx]
  · intro hx
    simp [collect_with_smc, hx]

/-- Witness for C2: with PDTR = 18.5 W the returned reading is the base with
`watts_actual` overridden to 18.5; with PDTR unset it is the base itself. -/
theorem collect_with_smc_overrides_watts_witness :
    collect_with_smc sampleReading smcDataWithPDTR =
      { sampleReading with watts_actual := 37 / 2 } ∧
    collect_with_smc sampleReading smcDataNoPDTR = sampleReading :=
  ⟨(collect_with_smc_overrides_watts sampleReading smcDataWithPDTR).1 (37 / 2) rfl,
   (collect_with_smc_overrides_watts sampleReading smcDataNoPDTR).2 rfl⟩

/-- C8: `str_to_key` (`encode_key`) on any string whose length is not exactly
4 returns the sentinel 0 (being a total function, it raises nothing). -/
theorem str_to_key_invalid_length (s : String) (h : s.length ≠ 4) :
    str_to_key s = 0 := by
  simp [str_to_key, h]

/-- Witness for C8 at the empty string and at lengths 3 and 5. -/
theorem str_to_key_invalid_length_witness :
    ("ABC" : String).length ≠ 4 ∧ str_to_key "ABC" = 0 ∧
    ("ABCDE" : String).length ≠ 4 ∧ str_to_key "ABCDE" = 0 ∧
    ("" : String).length ≠ 4 ∧ str_to_key "" = 0 :=
  ⟨by decide, str_to_key_invalid_length "ABC" (by decide),
   by decide, str_to_key_invalid_length "ABCDE" (by decide),
   by decide, str_to_key_invalid_length "" (by decide)⟩

/-- C9: `read_key` on a key name whose length is not 4 fails with the
validation error before issuing any device call: the device-call trace is
empty. -/
theorem read_key_invalid_length (dev : SMCDevice) (name : String)
    (h : name.length ≠ 4) :
    read_key dev name =
      (.error (.valueError "SMC key must be exactly 4 characters"), []) := by
  simp [read_key, h]

/-- Witness for C9 at key names of lengths 3, 5 and 0 on a concrete device. -/
theorem read_key_invalid_length_witness :
    ("ABC" : String).length ≠ 4 ∧
    read_key unavailableDevice "ABC" =
      (.error (.valueError "SMC key must be exactly 4 characters"), []) ∧
    read_key unavailableDevice "ABCDE" =
      (.error (.valueError "SMC key must be exactly 4 characters"), []) ∧
    read_key unavailableDevice "" =
      (.error (.valueError "SMC key must be exactly 4 characters"), []) :=
  ⟨by decide, read_key_invalid_length unavailableDevice "ABC" (by decide),
   read_key_invalid_length unavailableDevice "ABCDE" (by decide),
   read_key_invalid_length unavailableDevice "" (by decide)⟩

/-- C10: `default_collector` fails with the `RuntimeError` message whenever
the platform is not `"darwin"`, and on `"darwin"` always returns the
`IORegCollector`; the IOKit composite collector is never selected on any
platform. -/
theorem default_collector_spec (p : String) :
    (p ≠ "darwin" → default_collector p = .error "PowerFlow only supports macOS") ∧
    (p = "darwin" → default_collector p = .ok .ioregCollector) ∧
    default_collector p ≠ .ok .iokitCollector := by
  refine ⟨fun h => by simp [default_collector, h],
          fun h => by simp [default_collector, h], ?_⟩
  by_cases h : p = "darwin" <;> simp [default_collector, h]

/-- Witness for C10 on the platforms `"linux"` and `"darwin"`. -/
theorem default_collector_spec_witness :
    default_collector "linux" = .error "PowerFlow only supports macOS" ∧
    default_collector "darwin" = .ok .ioregCollector :=
  ⟨(default_collector_spec "linux").1 (by decide),
   (default_collector_spec "darwin").2.1 rfl⟩

/-- C5: for every byte buffer with fewer bytes than the interpretation chosen
for the declared type tag and length requires, `bytes_to_float` returns 0.0
(and, being a total function, never raises). -/
theorem bytes_to_float_insufficient (data : List Nat) (t : String) (len : Nat)
    (h : data.length < required_length t len) :
    bytes_to_float data t len = 0 := by
  unfold bytes_to_float
  unfold required_length at h
  split_ifs at h ⊢ <;> rfl

/-- Witness for C5: a single byte where the sp78 interpretation needs two. -/
theorem bytes_to_float_insufficient_witness :
    ([0] : List Nat).length < required_length "sp78" 2 ∧
    bytes_to_float [0] "sp78" 2 = 0 :=
  ⟨by decide, bytes_to_float_insufficient [0] "sp78" 2 (by decide)⟩

/-- C6: for every type tag outside the decoder's known table and every buffer
of at least the declared length, `bytes_to_float` returns the buffer's
big-endian unsigned integer of the declared length cast to float, without
raising. -/
theorem bytes_to_float_unknown_type (data : List Nat) (t : String) (len : Nat)
    (ht : t ∉ knownTypes) (hl : len ≤ data.length) :
    bytes_to_float data t len = (beUint (data.take len) : ℚ) := by
  have h1 : t ∉ signedFPTypes := fun hm => ht (by
    unfold knownTypes; exact List.mem_append_left _ (List.mem_append_left _ hm))
  have h2 : t ∉ unsignedFPTypes := fun hm => ht (by
    unfold knownTypes; exact List.mem_append_left _ (List.mem_append_right _ hm))
  have h3 : t ≠ "flt " := fun hm => ht (by rw [hm]; decide)
  have h4 : t ≠ "ui8 " := fun hm => ht (by rw [hm]; decide)
  have h5 : t ≠ "ui16" := fun hm => ht (by rw [hm]; decide)
  have h6 : t ≠ "ui32" := fun hm => ht (by rw [hm]; decide)
  simp [bytes_to_float, h1, h2, h3, h4, h5, h6, Nat.not_lt.mpr hl]

/-- Witness for C6: the tag "xxxx" with the 2-byte big-endian buffer for 1234
decodes to 1234.0. -/
theorem bytes_to_float_unknown_type_witness :
    ("xxxx" : String) ∉ knownTypes ∧ (2 : Nat) ≤ ([4, 210] : List Nat).length ∧
    bytes_to_float [4, 210] "xxxx" 2 = 1234 :=
  ⟨by decide, by decide,
   (bytes_to_float_unknown_type [4, 210] "xxxx" 2 (by decide) (by decide)).trans
     (by norm_num [beUint])⟩

/-- C4: for every 2-byte buffer, every tag of the signed fixed-point family
decodes to the big-endian signed 16-bit value divided by 256, and every tag
of the unsigned family decodes to the big-endian unsigned 16-bit value
divided by 256 — the same /256 scale throughout, sign per family. -/
theorem bytes_to_float_fixed_point (b0 b1 : Nat) (hb0 : b0 < 256) (hb1 : b1 < 256)
    (t : String) :
    (t ∈ signedFPTypes →
      bytes_to_float [b0, b1] t 2 = (signed16 (b0 * 256 + b1) : ℚ) / 256) ∧
    (t ∈ unsignedFPTypes →
      bytes_to_float [b0, b1] t 2 = ((b0 * 256 + b1 : ℕ) : ℚ) / 256) := by
  have hbe : beUint [b0, b1] = b0 * 256 + b1 := by
    simp [beUint]
  constructor
  · intro ht
    unfold bytes_to_float
    rw [if_pos ht]
    simp [hbe]
  · intro ht
    have hns : t ∉ signedFPTypes := by
      fin_cases ht <;> decide
    unfold bytes_to_float
    rw [if_neg hns, if_pos ht]
    simp [hbe]

/-- Witness for C4: signed -2688 as "sp78" gives -10.5 and unsigned 4096 as
"fp88" gives 16.0, at in-range byte values. -/
theorem bytes_to_float_fixed_point_witness :
    (245 : Nat) < 256 ∧ (128 : Nat) < 256 ∧ (16 : Nat) < 256 ∧ (0 : Nat) < 256 ∧
    bytes_to_float [245, 128] "sp78" 2 = -21 / 2 ∧
    bytes_to_float [16, 0] "fp88" 2 = 16 := by
  refine ⟨by decide, by decide, by decide, by decide, ?_, ?_⟩
  · exact ((bytes_to_float_fixed_point 245 128 (by decide) (by decide) "sp78").1
      (by decide)).trans (by norm_num [signed16])
  · exact ((bytes_to_float_fixed_point 16 0 (by decide) (by decide) "fp88").2
      (by decide)).trans (by norm_num)

/-- C3: for every pattern of per-sensor success and failure over the seven
fixed sensor keys, `read_smc_sensors` returns (without raising) an
`SMCPowerData` whose field for each succeeding key holds exactly the value
read and whose field for each failing key is unset. -/
theorem read_smc_sensors_fields (conn : String → Except SMCError ℚ) :
    (read_smc_sensors conn).battery_power = (conn "PPBR").toOption ∧
    (read_smc_sensors conn).power_input = (conn "PDTR").toOption ∧
    (read_smc_sensors conn).system_power = (conn "PSTR").toOption ∧
    (read_smc_sensors conn).heatpipe_power = (conn "PHPC").toOption ∧
    (read_smc_sensors conn).display_power = (conn "PDBR").toOption ∧
    (read_smc_sensors conn).battery_temp = (conn "TB0T").toOption ∧
    (read_smc_sensors conn).charging_status = (conn "CHCC").toOption := by
  rcases h1 : conn "PPBR" with e1 | v1 <;>
  rcases h2 : conn "PDTR" with e2 | v2 <;>
  rcases h3 : conn "PSTR" with e3 | v3 <;>
  rcases h4 : conn "PHPC" with e4 | v4 <;>
  rcases h5 : conn "PDBR" with e5 | v5 <;>
  rcases h6 : conn "TB0T" with e6 | v6 <;>
  rcases h7 : conn "CHCC" with e7 | v7 <;>
  simp [read_smc_sensors, smc_sensor_keys, h1, h2, h3, h4, h5, h6, h7,
    Except.toOption]

/-- C7: for every 4-character ASCII string `s`, decoding the 32-bit key
produced by encoding it returns `s` itself: `key_to_str (str_to_key s) = s`. -/
theorem key_roundtrip (s : String) (h4 : s.length = 4)
    (hascii : ∀ c ∈ s.data, c.toNat < 128) :
    key_to_str (str_to_key s) = s := by
  obtain ⟨data⟩ := s
  simp only [String.length] at h4
  rcases data with _ | ⟨c0, _ | ⟨c1, _ | ⟨c2, _ | ⟨c3, _ | ⟨c4, rest⟩⟩⟩⟩⟩
  · simp at h4
  · simp at h4
  · simp at h4
  · simp at h4
  · have h0 : c0.toNat < 128 := hascii c0 (by simp)
    have h1 : c1.toNat < 128 := hascii c1 (by simp)
    have h2 : c2.toNat < 128 := hascii c2 (by simp)
    have h3 : c3.toNat < 128 := hascii c3 (by simp)
    have hkey : str_to_key ⟨[c0, c1, c2, c3]⟩ =
        ((c0.toNat * 256 + c1.toNat) * 256 + c2.toNat) * 256 + c3.toNat := by
      simp [str_to_key, String.length, List.foldl]
    rw [hkey]
    unfold key_to_str
    have e0 : (((c0.toNat * 256 + c1.toNat) * 256 + c2.toNat) * 256 + c3.toNat) / 2 ^ 24 % 256
        = c0.toNat := by omega
    have e1 : (((c0.toNat * 256 + c1.toNat) * 256 + c2.toNat) * 256 + c3.toNat) / 2 ^ 16 % 256
        = c1.toNat := by omega
    have e2 : (((c0.toNat * 256 + c1.toNat) * 256 + c2.toNat) * 256 + c3.toNat) / 2 ^ 8 % 256
        = c2.toNat := by omega
    have e3 : (((c0.toNat * 256 + c1.toNat) * 256 + c2.toNat) * 256 + c3.toNat) % 256
        = c3.toNat := by omega
    rw [e0, e1, e2, e3, Char.ofNat_toNat, Char.ofNat_toNat, Char.ofNat_toNat,
      Char.ofNat_toNat]
  · simp at h4

/-- Witness for C7 at the sensor key "PDTR". -/
theorem key_roundtrip_witness :
    ("PDTR" : String).length = 4 ∧ (∀ c ∈ ("PDTR" : String).data, c.toNat < 128) ∧
    key_to_str (str_to_key "PDTR") = "PDTR" :=
  ⟨by decide, by decide, key_roundtrip "PDTR" (by decide) (by decide)⟩

end Powerflow
